import Mathlib

/-!
Verification development for the LUX WhatsApp session server
(src/index.js and the server prototype embedded in src/public/app.js).

The embedding models:
  * the base64 session-token encoding (`authFolderToSessionString`,
    `SESSION_PREFIX = 'LUX~'`, `Buffer.from(json,'utf8').toString('base64')`);
  * the short-code file DB of index.js (`storeSessionAndCode`,
    `sessionResults`, `/api/session/result/:id`);
  * the per-entry state machine of `startQrFlow` in app.js;
  * the event-handler state of the `/api/session/qr` and
    `/api/session/pair` request handlers of index.js, including the
    one-shot `answered` / `requested` flags and the awaits (suspension
    points) inside the handlers;
  * the phone-number validation of `/api/session/pair`.
-/

/-! ### Baileys disconnect reason codes used by the server -/

def DisconnectReason.loggedOut : Nat := 401

def DisconnectReason.restartRequired : Nat := 515

/-! ### Base64 encoding (Buffer.toString('base64')) over byte lists -/

def b64Alphabet : List Char :=
  [ 'A', 'B', 'C', 'D', 'E', 'F', 'G', 'H', 'I', 'J', 'K', 'L', 'M',
    'N', 'O', 'P', 'Q', 'R', 'S', 'T', 'U', 'V', 'W', 'X', 'Y', 'Z',
    'a', 'b', 'c', 'd', 'e', 'f', 'g', 'h', 'i', 'j', 'k', 'l', 'm',
    'n', 'o', 'p', 'q', 'r', 's', 't', 'u', 'v', 'w', 'x', 'y', 'z',
    '0', '1', '2', '3', '4', '5', '6', '7', '8', '9', '+', '/' ]

def b64Char (n : Nat) : Char := b64Alphabet.getD n 'A'

def b64Index (c : Char) : Option Nat :=
  (List.range 64).find? (fun n => b64Char n = c)

/-- Canonical base64 of a byte list, including `=` padding, exactly as
`Buffer.toString('base64')` produces it. -/
def b64Encode : List Nat → List Char
  | [] => []
  | [a] => [b64Char (a / 4), b64Char (a % 4 * 16), '=', '=']
  | [a, b] => [b64Char (a / 4), b64Char (a % 4 * 16 + b / 16), b64Char (b % 16 * 4), '=']
  | a :: b :: c :: rest =>
      b64Char (a / 4) :: b64Char (a % 4 * 16 + b / 16) ::
        b64Char (b % 16 * 4 + c / 64) :: b64Char (c % 64) :: b64Encode rest

/-- Base64 decoder (inverse direction of the token encoding). -/
def b64Decode : List Char → Option (List Nat)
  | [] => some []
  | c1 :: c2 :: c3 :: c4 :: rest =>
      (b64Index c1).bind fun x =>
      (b64Index c2).bind fun y =>
      if c3 = '=' then
        if c4 = '=' ∧ rest = [] then some [x * 4 + y / 16] else none
      else
        (b64Index c3).bind fun z =>
        if c4 = '=' then
          if rest = [] then some [x * 4 + y / 16, y % 16 * 16 + z / 4] else none
        else
          (b64Index c4).bind fun w =>
          (b64Decode rest).bind fun tail =>
          some ((x * 4 + y / 16) :: (y % 16 * 16 + z / 4) :: (z % 4 * 64 + w) :: tail)
  | _ => none

theorem b64Index_b64Char : ∀ n, n < 64 → b64Index (b64Char n) = some n := by decide

theorem b64Char_ne_eq : ∀ n, n < 64 → b64Char n ≠ '=' := by decide

theorem b64Decode_b64Encode :
    ∀ (fuel : Nat) (s : List Nat), s.length ≤ fuel → (∀ b ∈ s, b < 256) →
      b64Decode (b64Encode s) = some s := by
  intro fuel
  induction fuel with
  | zero =>
    intro s hlen _
    have : s = [] := List.length_eq_zero.mp (Nat.le_zero.mp hlen)
    subst this
    rfl
  | succ n ih =>
    intro s hlen hb
    match s with
    | [] => rfl
    | [a] =>
      have ha : a < 256 := hb a (by simp)
      simp only [b64Encode, b64Decode,
        b64Index_b64Char (a / 4) (by omega),
        b64Index_b64Char (a % 4 * 16) (by omega),
        Option.some_bind]
      simp
      omega
    | [a, b] =>
      have ha : a < 256 := hb a (by simp)
      have hbb : b < 256 := hb b (by simp)
      have h3 : b64Char (b % 16 * 4) ≠ '=' := b64Char_ne_eq _ (by omega)
      simp only [b64Encode, b64Decode,
        b64Index_b64Char (a / 4) (by omega),
        b64Index_b64Char (a % 4 * 16 + b / 16) (by omega),
        b64Index_b64Char (b % 16 * 4) (by omega),
        Option.some_bind, if_neg h3]
      simp
      omega
    | a :: b :: c :: rest =>
      have ha : a < 256 := hb a (by simp)
      have hbb : b < 256 := hb b (by simp)
      have hc : c < 256 := hb c (by simp)
      have hrest : b64Decode (b64Encode rest) = some rest := by
        apply ih rest
        · simp only [List.length_cons] at hlen
          omega
        · intro x hx
          exact hb x (by simp [hx])
      have h3 : b64Char (b % 16 * 4 + c / 64) ≠ '=' := b64Char_ne_eq _ (by omega)
      have h4 : b64Char (c % 64) ≠ '=' := b64Char_ne_eq _ (by omega)
      simp only [b64Encode, b64Decode,
        b64Index_b64Char (a / 4) (by omega),
        b64Index_b64Char (a % 4 * 16 + b / 16) (by omega),
        b64Index_b64Char (b % 16 * 4 + c / 64) (by omega),
        b64Index_b64Char (c % 64) (by omega),
        Option.some_bind, if_neg h3, if_neg h4, hrest]
      simp
      omega

/-! ### JSON values and JSON.stringify

File contents are modelled as already-parsed JSON values (every file the
library writes to the auth folder is JSON, and `authFolderToSessionString`
does `JSON.parse` on each before re-serializing).  Strings (and object
keys) are lists of UTF-8 bytes; numbers are modelled as integers. -/

inductive Json where
  | null : Json
  | bool (b : Bool) : Json
  | num (n : Int) : Json
  | str (s : List Nat) : Json
  | arr (elems : List Json) : Json
  | obj (fields : List (List Nat × Json)) : Json

def natDecimalBytes (n : Nat) : List Nat :=
  if h : n < 10 then [48 + n]
  else natDecimalBytes (n / 10) ++ [48 + n % 10]
termination_by n
decreasing_by exact Nat.div_lt_self (by omega) (by omega)

def intDecimalBytes (i : Int) : List Nat :=
  if i < 0 then 45 :: natDecimalBytes i.natAbs else natDecimalBytes i.natAbs

def hexDigitByte (n : Nat) : Nat := if n < 10 then 48 + n else 87 + n

/-- How `JSON.stringify` escapes a single byte inside a string literal. -/
def escapeByte (b : Nat) : List Nat :=
  if b = 34 then [92, 34]
  else if b = 92 then [92, 92]
  else if b = 8 then [92, 98]
  else if b = 9 then [92, 116]
  else if b = 10 then [92, 110]
  else if b = 12 then [92, 102]
  else if b = 13 then [92, 114]
  else if b < 32 then [92, 117, 48, 48, hexDigitByte (b / 16), hexDigitByte (b % 16)]
  else [b]

def strLiteralBytes (s : List Nat) : List Nat :=
  34 :: (s.map escapeByte).flatten ++ [34]

mutual

/-- `JSON.stringify`, producing the UTF-8 bytes of the JSON text. -/
def Json.stringify : Json → List Nat
  | .null => [110, 117, 108, 108]
  | .bool true => [116, 114, 117, 101]
  | .bool false => [102, 97, 108, 115, 101]
  | .num n => intDecimalBytes n
  | .str s => strLiteralBytes s
  | .arr elems => 91 :: stringifyElems elems ++ [93]
  | .obj fields => 123 :: stringifyFields fields ++ [125]

def stringifyElems : List Json → List Nat
  | [] => []
  | [j] => Json.stringify j
  | j :: rest => Json.stringify j ++ 44 :: stringifyElems rest

def stringifyFields : List (List Nat × Json) → List Nat
  | [] => []
  | [(k, v)] => strLiteralBytes k ++ 58 :: Json.stringify v
  | (k, v) :: rest => strLiteralBytes k ++ 58 :: Json.stringify v ++ 44 :: stringifyFields rest

end

/-! ### The session token (app.js `authFolderToSessionString`) -/

/-- `SESSION_PREFIX = 'LUX~'`. -/
def sessionPrefix : List Char := ['L', 'U', 'X', '~']

/-- The token built from the JSON text bytes:
`SESSION_PREFIX + Buffer.from(json, 'utf8').toString('base64')`. -/
def mkSessionToken (jsonBytes : List Nat) : List Char :=
  sessionPrefix ++ b64Encode jsonBytes

/-- Inverse of the token encoding: strip the `LUX~` prefix and
base64-decode the rest back to the JSON text bytes. -/
def decodeSessionToken : List Char → Option (List Nat)
  | 'L' :: 'U' :: 'X' :: '~' :: rest => b64Decode rest
  | _ => none

/-- app.js `authFolderToSessionString`.  The auth folder is `none` when the
directory does not exist (then the function throws), otherwise the listing
of its files as filename bytes paired with their parsed JSON contents. -/
def authFolderToSessionString (authDir : Option (List (List Nat × Json))) :
    Except String (List Char) :=
  match authDir with
  | none => Except.error "Auth folder does not exist. Login may have failed."
  | some files => Except.ok (mkSessionToken (Json.stringify (Json.obj files)))

/-- Helper used only to name concrete byte strings in examples. -/
def asciiBytes (s : String) : List Nat := s.data.map Char.toNat

/-! ### index.js short-code file DB

`sessionResults` is the in-memory map sessionId → short code, `codes` the
`codes/<code>.json` flat-file store.  `storeSessionAndCode` receives the
contents of `creds.json` (`none` when the file does not exist yet) and the
fresh `nanoid(8)` randomness it would use for a new short code. -/

structure FileDB where
  registry : List (String × String)
  codes : List (String × String)
deriving DecidableEq

def generateShortCode (fresh : String) : String := "LUX~" ++ fresh

/-- index.js `storeSessionAndCode`: reuse the session's short code if one
exists, otherwise mint one from the fresh randomness; (over)write
`codes/<code>.json` with the current `creds.json` content; return the code.
When `creds.json` is missing, return `null` and change nothing. -/
def storeSessionAndCode (db : FileDB) (sessionId : String) (creds : Option String)
    (fresh : String) : FileDB × Option String :=
  match creds with
  | none => (db, none)
  | some content =>
    match db.registry.lookup sessionId with
    | some code =>
        ({ registry := db.registry, codes := (code, content) :: db.codes }, some code)
    | none =>
        let code := generateShortCode fresh
        ({ registry := (sessionId, code) :: db.registry,
           codes := (code, content) :: db.codes }, some code)

/-- index.js `GET /api/session/result/:id`: HTTP status, `ready`, `code`. -/
def resultEndpoint (db : FileDB) (id : String) : Nat × Bool × Option String :=
  let code := db.registry.lookup id
  (200, code.isSome, code)

/-- One `storeSessionAndCode` call: session id, `creds.json` content (if the
file exists), fresh randomness. -/
structure StoreOp where
  sessionId : String
  creds : Option String
  fresh : String

def applyStores (ops : List StoreOp) (db : FileDB) : FileDB :=
  ops.foldl (fun d op => (storeSessionAndCode d op.sessionId op.creds op.fresh).1) db

theorem lookup_preserved_by_store (db : FileDB) (op : StoreOp) (id : String)
    (c : String) (h : db.registry.lookup id = some c) :
    ((storeSessionAndCode db op.sessionId op.creds op.fresh).1).registry.lookup id = some c := by
  unfold storeSessionAndCode
  match hc : op.creds with
  | none => exact h
  | some content =>
    simp only []
    match hl : db.registry.lookup op.sessionId with
    | some code => exact h
    | none =>
      simp only [List.lookup]
      have hne : (id == op.sessionId) = false := by
        by_contra hcon
        have : id = op.sessionId := by
          have := eq_of_beq (a := id) (b := op.sessionId)
          cases hb : id == op.sessionId with
          | true => exact this hb
          | false => exact absurd hb hcon
        subst this
        rw [h] at hl
        exact Option.noConfusion hl
      rw [hne]
      exact h

theorem lookup_preserved_by_stores (ops : List StoreOp) (db : FileDB) (id : String)
    (c : String) (h : db.registry.lookup id = some c) :
    (applyStores ops db).registry.lookup id = some c := by
  induction ops generalizing db with
  | nil => exact h
  | cons op rest ih =>
    exact ih _ (lookup_preserved_by_store db op id c h)

/-! ### app.js `startQrFlow`: the per-entry state machine

A `qrSessions` entry carries `status` (`starting`/`connecting`/`qr`/
`done`/`error`/`expired`), the latest QR payload, the session token and
the error text.  The `connection.update` handler processes, in order, the
`qr` field, `connection === 'open'` and `connection === 'close'` of one
update object; the safety timeout is a separate callback. -/

structure QrEntry where
  status : String
  qr : Option (List Char)
  session : Option (List Char)
  error : Option String
deriving DecidableEq

/-- One `connection.update` payload as the handler reads it. -/
structure ConnUpdate where
  qr : Option (List Char)
  connection : Option String
  lastDisconnectCode : Option Nat
deriving DecidableEq

/-- Error text chosen by the close branch of `startQrFlow`
(`loggedOut` is 401, and `!code || code === 515` covers the
restart-required / unknown case). -/
def qrFlowCloseError (code : Option Nat) : String :=
  if code = some DisconnectReason.loggedOut then
    "Logged out / device removed by WhatsApp"
  else if code = none ∨ code = some DisconnectReason.restartRequired then
    "Connection closed (restart required / unknown)"
  else
    "Connection closed with code " ++ toString (code.getD 0)

/-- The body of `sock.ev.on('connection.update', ...)` in `startQrFlow`,
acting on one registry entry.  `authDir` is the auth folder state read by
`authFolderToSessionString` when the connection opens. -/
def qrFlowConnUpdate (authDir : Option (List (List Nat × Json)))
    (u : ConnUpdate) (e : QrEntry) : QrEntry :=
  let e1 :=
    match u.qr with
    | some payload => { e with qr := some payload, status := "qr" }
    | none => e
  let e2 :=
    if u.connection = some "open" then
      match authFolderToSessionString authDir with
      | Except.ok s => { e1 with session := some s, status := "done" }
      | Except.error m => { e1 with error := some m, status := "error" }
    else e1
  if u.connection = some "close" then
    if e2.session = none then
      { e2 with status := "error", error := some (qrFlowCloseError u.lastDisconnectCode) }
    else e2
  else e2

/-- The `startQrFlow` safety-timeout callback: any entry not yet `done`
becomes `expired`. -/
def qrFlowTimeout (e : QrEntry) : QrEntry :=
  if e.status = "done" then e
  else { e with status := "expired", error := some "Timed out waiting for scan/login" }

/-- The `setTimeout` delay of the `startQrFlow` safety timeout
(`3 * 60 * 1000` ms in app.js). -/
def startQrFlowTimeoutMs : Nat := 3 * 60 * 1000

/-- Entry state right after `startQrFlow` attached the socket. -/
def qrEntryInit : QrEntry :=
  { status := "connecting", qr := none, session := none, error := none }

/-! ### index.js `/api/session/qr` handler

Per-request state: the one-shot `answered` flag, the number of
`QRCode.toDataURL` renders currently awaited (the handler checks
`!answered && qr` *before* the await and sets `answered` only after it),
whether the 60 s timer marked the request timed out, the number of
automatic restart-required reconnects (`createSocket` calls), the number
of `sock.ws.close()` calls, and the HTTP statuses sent so far. -/

structure QrHandlerState where
  answered : Bool
  pendingRenders : Nat
  timedOut : Bool
  reconnects : Nat
  socketCloses : Nat
  responses : List Nat
deriving DecidableEq

def qrHandlerInit : QrHandlerState :=
  { answered := false, pendingRenders := 0, timedOut := false,
    reconnects := 0, socketCloses := 0, responses := [] }

/-- Atomic scheduler steps of the `/api/session/qr` handler.  `qrArrives`
is a `connection.update` carrying a QR payload up to the `await
QRCode.toDataURL` suspension; `renderCompletes` is the code after that
await; `timerFires` is the 60-second timeout callback; `closes` is a
`connection.update` with `connection === 'close'`. -/
inductive QrHandlerEvent where
  | qrArrives : QrHandlerEvent
  | renderCompletes : QrHandlerEvent
  | timerFires : QrHandlerEvent
  | closes (code : Option Nat) : QrHandlerEvent
deriving DecidableEq

def qrHandlerStep : QrHandlerEvent → QrHandlerState → QrHandlerState
  | .qrArrives, s =>
      if s.answered then s
      else { s with pendingRenders := s.pendingRenders + 1 }
  | .renderCompletes, s =>
      if s.pendingRenders = 0 then s
      else { s with pendingRenders := s.pendingRenders - 1, answered := true,
                    responses := s.responses ++ [200] }
  | .timerFires, s =>
      if s.answered then s
      else { s with answered := true, timedOut := true,
                    responses := s.responses ++ [504],
                    socketCloses := s.socketCloses + 1 }
  | .closes code, s =>
      if code = some DisconnectReason.restartRequired then
        { s with reconnects := s.reconnects + 1 }
      else if s.answered then s
      else { s with answered := true, responses := s.responses ++ [500] }

def qrHandlerRun (evs : List QrHandlerEvent) : QrHandlerState :=
  evs.foldl (fun s e => qrHandlerStep e s) qrHandlerInit

/-- The `setTimeout` delay of the index.js QR handler (`60_000` ms). -/
def qrTimeoutMs : Nat := 60000

/-- The `setTimeout` delay of the index.js pair handler (`60_000` ms). -/
def pairTimeoutMs : Nat := 60000

/-! ### index.js `/api/session/pair` handler -/

/-- The `/^\d{8,15}$/` test (on a digits-only string this is exactly a
length bound, but it is stated as the regex is: all digits, 8–15 long).
Characters are modelled by their code points. -/
def phoneRegexTest (s : List Nat) : Bool :=
  s.all (fun n => 48 ≤ n && n ≤ 57) && decide (8 ≤ s.length) && decide (s.length ≤ 15)

def isJsSpace (n : Nat) : Bool :=
  n = 32 || n = 9 || n = 10 || n = 13 || n = 12 || n = 11

/-- `String.prototype.trim` (whitespace at both ends removed). -/
def jsTrim (s : List Nat) : List Nat :=
  ((s.dropWhile isJsSpace).reverse.dropWhile isJsSpace).reverse

/-- `rawPhone.replace(/[^\d]/g, '')`. -/
def stripNonDigits (s : List Nat) : List Nat :=
  s.filter (fun n => 48 ≤ n && n ≤ 57)

/-- The pair endpoint's validation: trim, strip non-digits, then test the
regex on the stripped string. -/
def pairPhoneAccepted (raw : List Nat) : Bool :=
  phoneRegexTest (stripNonDigits (jsTrim raw))

/-- The immediate part of `GET /api/session/pair`: either a 400
`invalid_phone` response with no socket opened, or no immediate error and
one socket opened via `createSocket`. -/
def pairEndpointImmediate (raw : List Nat) : Option Nat × Nat :=
  if pairPhoneAccepted raw then (none, 1) else (some 400, 0)

/-- Fuel-based splitter (fuel is the list length, so the zero-fuel arm with
a nonempty list is never reached). -/
def chunks4Aux : Nat → List Char → List (List Char)
  | _, [] => []
  | 0, _ => []
  | Nat.succ fuel, cs => cs.take 4 :: chunks4Aux fuel (cs.drop 4)

/-- `code.match(/.{1,4}/g)` : split into chunks of up to four characters. -/
def chunks4 (cs : List Char) : List (List Char) := chunks4Aux cs.length cs

/-- `code.match(/.{1,4}/g)?.join('-') || code` (for the empty string the
match is `null` and the code is returned unchanged, which coincides with
joining no chunks). -/
def formatPairCode (cs : List Char) : List Char :=
  (chunks4 cs).intersperse ['-'] |>.flatten

/-- Per-request state of the `/api/session/pair` handler: the one-shot
`requested` and `answered` flags, how many `requestPairingCode` RPCs were
started and how many are still awaited, reconnects, socket closes, and the
responses sent (status paired with the formatted code, for 200s). -/
structure PairHandlerState where
  requested : Bool
  answered : Bool
  rpcCalls : Nat
  pendingRpc : Nat
  reconnects : Nat
  socketCloses : Nat
  responses : List (Nat × Option (List Char))
deriving DecidableEq

def pairHandlerInit : PairHandlerState :=
  { requested := false, answered := false, rpcCalls := 0, pendingRpc := 0,
    reconnects := 0, socketCloses := 0, responses := [] }

/-- Atomic scheduler steps of the `/api/session/pair` handler.
`connUpdate` runs the handler body up to the `await
sock.requestPairingCode` suspension (the close branch is reached in the
same invocation only when `connection === 'close'`, which the request
branch then ignores); `rpcReturns`/`rpcThrows` resume after that await. -/
inductive PairHandlerEvent where
  | connUpdate (connection : Option String) (lastDisconnectCode : Option Nat) : PairHandlerEvent
  | rpcReturns (code : List Char) : PairHandlerEvent
  | rpcThrows : PairHandlerEvent
  | timerFires : PairHandlerEvent
deriving DecidableEq

def pairHandlerStep : PairHandlerEvent → PairHandlerState → PairHandlerState
  | .connUpdate conn disc, s =>
      if s.requested = false ∧ (conn = some "connecting" ∨ conn = some "open") then
        { s with requested := true, rpcCalls := s.rpcCalls + 1,
                 pendingRpc := s.pendingRpc + 1 }
      else if conn = some "close" then
        if disc = some DisconnectReason.restartRequired then
          { s with reconnects := s.reconnects + 1 }
        else if s.answered then s
        else { s with answered := true, responses := s.responses ++ [(500, none)] }
      else s
  | .rpcReturns code, s =>
      if s.pendingRpc = 0 then s
      else
        let s1 := { s with pendingRpc := s.pendingRpc - 1 }
        if s1.answered then s1
        else { s1 with answered := true,
                       responses := s1.responses ++ [(200, some (formatPairCode code))] }
  | .rpcThrows, s =>
      if s.pendingRpc = 0 then s
      else
        let s1 := { s with pendingRpc := s.pendingRpc - 1 }
        if s1.answered then s1
        else { s1 with answered := true, responses := s1.responses ++ [(500, none)] }
  | .timerFires, s =>
      if s.answered then s
      else { s with answered := true, responses := s.responses ++ [(504, none)],
                    socketCloses := s.socketCloses + 1 }

def pairHandlerRun (evs : List PairHandlerEvent) : PairHandlerState :=
  evs.foldl (fun s e => pairHandlerStep e s) pairHandlerInit

/-! ### Helper lemmas -/

/-- Invariant of the QR handler: the socket is closed at most once, and
only after the request has been answered. -/
def QrHandlerInv (s : QrHandlerState) : Prop :=
  s.socketCloses ≤ 1 ∧ (s.answered = false → s.socketCloses = 0)

theorem qrHandlerStep_inv (e : QrHandlerEvent) (s : QrHandlerState)
    (h : QrHandlerInv s) : QrHandlerInv (qrHandlerStep e s) := by
  obtain ⟨h1, h2⟩ := h
  cases e with
  | qrArrives =>
    by_cases ha : s.answered <;> simp [qrHandlerStep, ha, QrHandlerInv, h1, h2]
  | renderCompletes =>
    by_cases hp : s.pendingRenders = 0 <;>
      simp [qrHandlerStep, hp, QrHandlerInv, h1, h2] <;> exact h2
  | timerFires =>
    by_cases ha : s.answered
    · simp [qrHandlerStep, ha, QrHandlerInv, h1, h2]
    · have : s.socketCloses = 0 := h2 (by simpa using ha)
      simp [qrHandlerStep, ha, QrHandlerInv, this]
  | closes code =>
    by_cases hc : code = some DisconnectReason.restartRequired
    · simp [qrHandlerStep, hc, QrHandlerInv, h1, h2] <;> exact h2
    · by_cases ha : s.answered <;> simp [qrHandlerStep, hc, ha, QrHandlerInv, h1, h2]

theorem qrHandlerFold_inv (evs : List QrHandlerEvent) (s : QrHandlerState)
    (h : QrHandlerInv s) :
    QrHandlerInv (evs.foldl (fun s e => qrHandlerStep e s) s) := by
  induction evs generalizing s with
  | nil => exact h
  | cons e rest ih => exact ih _ (qrHandlerStep_inv e s h)

/-- Invariant of the pair handler: the pairing-code RPC is started at most
once, and only after the `requested` flag was set. -/
def PairHandlerInv (s : PairHandlerState) : Prop :=
  s.rpcCalls ≤ 1 ∧ (s.requested = false → s.rpcCalls = 0)

theorem pairHandlerStep_inv (e : PairHandlerEvent) (s : PairHandlerState)
    (h : PairHandlerInv s) : PairHandlerInv (pairHandlerStep e s) := by
  obtain ⟨h1, h2⟩ := h
  cases e with
  | connUpdate conn disc =>
    by_cases hg : s.requested = false ∧ (conn = some "connecting" ∨ conn = some "open")
    · have : s.rpcCalls = 0 := h2 hg.1
      simp [pairHandlerStep, hg, PairHandlerInv, this]
    · simp only [pairHandlerStep, if_neg hg]
      by_cases hc : conn = some "close"
      · by_cases hd : disc = some DisconnectReason.restartRequired
        · simp [hc, hd, PairHandlerInv, h1, h2] <;> exact h2
        · by_cases ha : s.answered <;> simp [hc, hd, ha, PairHandlerInv, h1, h2] <;> exact h2
      · simp [hc, PairHandlerInv, h1, h2] <;> exact h2
  | rpcReturns code =>
    by_cases hp : s.pendingRpc = 0
    · simp [pairHandlerStep, hp, PairHandlerInv, h1, h2] <;> exact h2
    · by_cases ha : s.answered <;> simp [pairHandlerStep, hp, ha, PairHandlerInv, h1, h2] <;> exact h2
  | rpcThrows =>
    by_cases hp : s.pendingRpc = 0
    · simp [pairHandlerStep, hp, PairHandlerInv, h1, h2] <;> exact h2
    · by_cases ha : s.answered <;> simp [pairHandlerStep, hp, ha, PairHandlerInv, h1, h2] <;> exact h2
  | timerFires =>
    by_cases ha : s.answered <;> simp [pairHandlerStep, ha, PairHandlerInv, h1, h2] <;> exact h2

theorem pairHandlerFold_inv (evs : List PairHandlerEvent) (s : PairHandlerState)
    (h : PairHandlerInv s) :
    PairHandlerInv (evs.foldl (fun s e => pairHandlerStep e s) s) := by
  induction evs generalizing s with
  | nil => exact h
  | cons e rest ih => exact ih _ (pairHandlerStep_inv e s h)

/-- Invariant of the pair handler: like the QR handler, its socket is
closed (by the timeout callback, the only closing branch) at most once,
and only after the request has been answered. -/
def PairCloseInv (s : PairHandlerState) : Prop :=
  s.socketCloses ≤ 1 ∧ (s.answered = false → s.socketCloses = 0)

theorem pairHandlerStep_close_inv (e : PairHandlerEvent) (s : PairHandlerState)
    (h : PairCloseInv s) : PairCloseInv (pairHandlerStep e s) := by
  obtain ⟨h1, h2⟩ := h
  cases e with
  | connUpdate conn disc =>
    by_cases hg : s.requested = false ∧ (conn = some "connecting" ∨ conn = some "open")
    · simp [pairHandlerStep, hg, PairCloseInv, h1, h2] <;> exact h2
    · simp only [pairHandlerStep, if_neg hg]
      by_cases hc : conn = some "close"
      · by_cases hd : disc = some DisconnectReason.restartRequired
        · simp [hc, hd, PairCloseInv, h1, h2] <;> exact h2
        · by_cases ha : s.answered <;> simp [hc, hd, ha, PairCloseInv, h1, h2] <;>
            exact h2
      · simp [hc, PairCloseInv, h1, h2] <;> exact h2
  | rpcReturns code =>
    by_cases hp : s.pendingRpc = 0
    · simp [pairHandlerStep, hp, PairCloseInv, h1, h2] <;> exact h2
    · by_cases ha : s.answered <;> simp [pairHandlerStep, hp, ha, PairCloseInv, h1, h2] <;>
        exact h2
  | rpcThrows =>
    by_cases hp : s.pendingRpc = 0
    · simp [pairHandlerStep, hp, PairCloseInv, h1, h2] <;> exact h2
    · by_cases ha : s.answered <;> simp [pairHandlerStep, hp, ha, PairCloseInv, h1, h2] <;>
        exact h2
  | timerFires =>
    by_cases ha : s.answered
    · simp [pairHandlerStep, ha, PairCloseInv, h1, h2]
    · have : s.socketCloses = 0 := h2 (by simpa using ha)
      simp [pairHandlerStep, ha, PairCloseInv, this]

theorem pairHandlerFold_close_inv (evs : List PairHandlerEvent) (s : PairHandlerState)
    (h : PairCloseInv s) :
    PairCloseInv (evs.foldl (fun s e => pairHandlerStep e s) s) := by
  induction evs generalizing s with
  | nil => exact h
  | cons e rest ih => exact ih _ (pairHandlerStep_close_inv e s h)

theorem dropWhile_of_digits (l : List Nat)
    (h : ∀ x ∈ l, (48 ≤ x && x ≤ 57) = true) : l.dropWhile isJsSpace = l := by
  cases l with
  | nil => rfl
  | cons x xs =>
    rw [List.dropWhile_cons]
    have hx := h x (by simp)
    have : isJsSpace x = false := by
      simp only [Bool.and_eq_true, decide_eq_true_eq] at hx
      simp only [isJsSpace, Bool.or_eq_false_iff, decide_eq_false_iff_not]
      omega
    simp [this]

theorem jsTrim_of_digits (s : List Nat)
    (h : ∀ x ∈ s, (48 ≤ x && x ≤ 57) = true) : jsTrim s = s := by
  unfold jsTrim
  rw [dropWhile_of_digits s h]
  rw [dropWhile_of_digits s.reverse (by intro x hx; exact h x (List.mem_reverse.mp hx))]
  exact List.reverse_reverse s

theorem stripNonDigits_of_digits (s : List Nat)
    (h : ∀ x ∈ s, (48 ≤ x && x ≤ 57) = true) : stripNonDigits s = s := by
  unfold stripNonDigits
  exact List.filter_eq_self.mpr h

theorem stripNonDigits_all_digits (s : List Nat) :
    (stripNonDigits s).all (fun n => 48 ≤ n && n ≤ 57) = true := by
  unfold stripNonDigits
  rw [List.all_eq_true]
  intro x hx
  exact (List.mem_filter.mp hx).2

/-! ### Concrete values used in counterexamples and witnesses -/

/-- An entry of `qrSessions` in the `done` terminal state with a token. -/
def doneEntry : QrEntry :=
  { status := "done", qr := none, session := some ['T'], error := none }

/-- An auth-folder listing with files but no `creds.json`. -/
def bundleNoCreds : List (List Nat × Json) :=
  [(asciiBytes "app-state.json", Json.null)]

/-- A small concrete credential bundle. -/
def credBundle0 : List (List Nat × Json) :=
  [(asciiBytes "creds.json", Json.obj [(asciiBytes "me", Json.str (asciiBytes "user"))])]

/-- A registry that already holds a ready session. -/
def readyDb : FileDB := { registry := [("S-1", "LUX~abc")], codes := [] }

/-- Some later `storeSessionAndCode` activity for other sessions. -/
def laterStores : List StoreOp :=
  [{ sessionId := "P-2", creds := some "{}", fresh := "zzzzzzzz" },
   { sessionId := "S-1", creds := some "{}", fresh := "qqqqqqqq" }]

/-! ### Claim C1 -/

/-- Claim C1 counterexample: in `startQrFlow` a QR-rotation event arriving
after the terminal `done` state moves the entry straight back to the
QR-issued state: starting from a fresh entry, an `open` update puts the
entry in `done`, and a subsequent update carrying a QR payload puts it in
`qr` again, because the QR branch of the handler is unguarded. -/
theorem qr_rotation_after_done_counterexample :
    (qrFlowConnUpdate (some []) ⟨none, some "open", none⟩ qrEntryInit).status = "done" ∧
    (qrFlowConnUpdate (some []) ⟨some ['X'], none, none⟩
        (qrFlowConnUpdate (some []) ⟨none, some "open", none⟩ qrEntryInit)).status = "qr" ∧
    ("qr" : String) ≠ "done" := by
  refine ⟨rfl, rfl, by decide⟩

/-- Claim C1 (amended): terminal states of the `startQrFlow` entry are only
partially sticky.  `done` survives the safety timeout; a close-only update
leaves an entry that already holds a session token unchanged; but an
update carrying a QR payload unconditionally moves ANY entry — terminal or
not — back to the `qr` state. -/
theorem qr_flow_partial_terminality :
    (∀ e : QrEntry, e.status = "done" → qrFlowTimeout e = e) ∧
    (∀ (authDir : Option (List (List Nat × Json))) (u : ConnUpdate) (e : QrEntry)
        (s : List Char), u.qr = none → u.connection = some "close" →
        e.session = some s → qrFlowConnUpdate authDir u e = e) ∧
    (∀ (authDir : Option (List (List Nat × Json))) (p : List Char) (e : QrEntry),
        (qrFlowConnUpdate authDir ⟨some p, none, none⟩ e).status = "qr") := by
  refine ⟨?_, ?_, ?_⟩
  · intro e he
    simp [qrFlowTimeout, he]
  · intro authDir u e s hq hc hs
    simp only [qrFlowConnUpdate, hq, hc, hs]
    simp
    intro h
    rw [hs] at h
    exact Option.noConfusion h
  · intro authDir p e
    simp [qrFlowConnUpdate]

/-- Witness for the amended C1 theorem at concrete inputs. -/
theorem qr_flow_partial_terminality_witness :
    qrFlowTimeout doneEntry = doneEntry ∧
    qrFlowConnUpdate none ⟨none, some "close", some 401⟩ doneEntry = doneEntry ∧
    (qrFlowConnUpdate none ⟨some ['X'], none, none⟩ doneEntry).status = "qr" :=
  ⟨qr_flow_partial_terminality.1 doneEntry rfl,
   qr_flow_partial_terminality.2.1 none ⟨none, some "close", some 401⟩ doneEntry ['T'] rfl rfl rfl,
   qr_flow_partial_terminality.2.2 none ['X'] doneEntry⟩

/-! ### Claim C2 -/

/-- Claim C2 counterexample: after the 60-second timer has fired (the
session is in the terminal `timed_out` state, 504 already sent), a close
event with the restart-required reason still opens a fresh connection —
the reconnect is not suppressed for terminal sessions. -/
theorem reconnect_after_timeout_counterexample :
    (qrHandlerStep .timerFires qrHandlerInit).timedOut = true ∧
    (qrHandlerStep .timerFires qrHandlerInit).answered = true ∧
    (qrHandlerStep (.closes (some DisconnectReason.restartRequired))
        (qrHandlerStep .timerFires qrHandlerInit)).reconnects = 1 := by
  refine ⟨rfl, rfl, rfl⟩

/-- Claim C2 (amended): in both the QR and the pair handler, a close event
triggers exactly one reconnect when its reason code is `restartRequired`
and none for any other reason — but unconditionally, regardless of the
session's state (in particular even after it reached a terminal state). -/
theorem restart_reconnect_characterization :
    (∀ (code : Option Nat) (s : QrHandlerState),
        (qrHandlerStep (.closes code) s).reconnects =
          s.reconnects + (if code = some DisconnectReason.restartRequired then 1 else 0)) ∧
    (∀ (conn : Option String) (disc : Option Nat) (s : PairHandlerState),
        (pairHandlerStep (.connUpdate conn disc) s).reconnects =
          s.reconnects +
            (if conn = some "close" ∧ disc = some DisconnectReason.restartRequired
             then 1 else 0)) := by
  constructor
  · intro code s
    by_cases hc : code = some DisconnectReason.restartRequired
    · simp [qrHandlerStep, hc]
    · by_cases ha : s.answered <;> simp [qrHandlerStep, hc, ha]
  · intro conn disc s
    by_cases hg : s.requested = false ∧ (conn = some "connecting" ∨ conn = some "open")
    · have hc : ¬(conn = some "close") := by
        rcases hg.2 with h | h <;> simp [h]
      simp [pairHandlerStep, hg, hc]
    · simp only [pairHandlerStep, if_neg hg]
      by_cases hc : conn = some "close"
      · by_cases hd : disc = some DisconnectReason.restartRequired
        · simp [hc, hd]
        · by_cases ha : s.answered <;> simp [hc, hd, ha]
      · simp [hc]

/-! ### Claim C3 -/

/-- Claim C3 counterexample: the safety timeout of the app.js QR flow is
`3 * 60 * 1000` = 180000 ms, not the fixed 60-second budget the claim
states for every session (index.js does use 60000 ms). -/
theorem qr_flow_timeout_not_60s_counterexample :
    startQrFlowTimeoutMs = 180000 ∧ startQrFlowTimeoutMs ≠ 60000 ∧ qrTimeoutMs = 60000 := by
  refine ⟨rfl, by decide, rfl⟩

/-- Claim C3 (amended): both index.js handlers (QR and pair) use a
60000 ms timer whose callback, when the request is still unanswered,
answers 504, marks the session timed out and closes the socket; over any
interleaving of either handler's events its socket is closed at most once
(double closes are impossible, and close errors are swallowed by
try/catch).  The app.js QR flow instead uses a 180000 ms safety timeout
that marks any non-`done` entry `expired` without sending an HTTP
response. -/
theorem timeout_behavior :
    qrTimeoutMs = 60000 ∧
    (∀ s : QrHandlerState, s.answered = false →
        qrHandlerStep .timerFires s =
          { s with answered := true, timedOut := true,
                   responses := s.responses ++ [504],
                   socketCloses := s.socketCloses + 1 }) ∧
    (∀ evs : List QrHandlerEvent, (qrHandlerRun evs).socketCloses ≤ 1) ∧
    pairTimeoutMs = 60000 ∧
    (∀ s : PairHandlerState, s.answered = false →
        pairHandlerStep .timerFires s =
          { s with answered := true,
                   responses := s.responses ++ [(504, none)],
                   socketCloses := s.socketCloses + 1 }) ∧
    (∀ evs : List PairHandlerEvent, (pairHandlerRun evs).socketCloses ≤ 1) ∧
    startQrFlowTimeoutMs = 180000 ∧
    (∀ e : QrEntry, e.status ≠ "done" → (qrFlowTimeout e).status = "expired") := by
  refine ⟨rfl, ?_, ?_, rfl, ?_, ?_, rfl, ?_⟩
  · intro s hs
    simp [qrHandlerStep, hs]
  · intro evs
    exact (qrHandlerFold_inv evs qrHandlerInit (by constructor <;> simp [qrHandlerInit])).1
  · intro s hs
    simp [pairHandlerStep, hs]
  · intro evs
    exact (pairHandlerFold_close_inv evs pairHandlerInit
      (by constructor <;> simp [pairHandlerInit])).1
  · intro e he
    simp [qrFlowTimeout, he]

/-- Witness for the amended C3 theorem at concrete inputs. -/
theorem timeout_behavior_witness :
    qrHandlerStep .timerFires qrHandlerInit =
      { qrHandlerInit with answered := true, timedOut := true,
                           responses := qrHandlerInit.responses ++ [504],
                           socketCloses := qrHandlerInit.socketCloses + 1 } ∧
    pairHandlerStep .timerFires pairHandlerInit =
      { pairHandlerInit with answered := true,
                             responses := pairHandlerInit.responses ++ [(504, none)],
                             socketCloses := pairHandlerInit.socketCloses + 1 } ∧
    (qrFlowTimeout qrEntryInit).status = "expired" :=
  ⟨timeout_behavior.2.1 qrHandlerInit rfl,
   timeout_behavior.2.2.2.2.1 pairHandlerInit rfl,
   timeout_behavior.2.2.2.2.2.2.2 qrEntryInit (by decide)⟩

/-! ### Claim C4 -/

/-- Claim C4 counterexample: the input string `"+918888888888"` does not
match `^\d{8,15}$` (it contains a `+`), yet the pair endpoint accepts it
and opens a connection, because the handler strips every non-digit
character before testing the regex. -/
theorem phone_with_separators_accepted_counterexample :
    phoneRegexTest (asciiBytes "+918888888888") = false ∧
    pairPhoneAccepted (asciiBytes "+918888888888") = true ∧
    pairEndpointImmediate (asciiBytes "+918888888888") = (none, 1) := by
  refine ⟨by decide, by decide, by decide⟩

/-- Claim C4 (amended): every string matching `^\d{8,15}$` is accepted,
and every rejected string gets the 400 `invalid_phone` response before any
connection is opened; but acceptance is decided on the trimmed input with
all non-digit characters removed — a string is accepted iff it contains
8 to 15 digits, so inputs with separators are accepted too. -/
theorem pair_phone_validation :
    (∀ raw : List Nat, phoneRegexTest raw = true → pairPhoneAccepted raw = true) ∧
    (∀ raw : List Nat, pairPhoneAccepted raw = false →
        pairEndpointImmediate raw = (some 400, 0)) ∧
    (∀ raw : List Nat, pairPhoneAccepted raw = true ↔
        8 ≤ (stripNonDigits (jsTrim raw)).length ∧
          (stripNonDigits (jsTrim raw)).length ≤ 15) := by
  refine ⟨?_, ?_, ?_⟩
  · intro raw h
    have h2 := h
    simp only [phoneRegexTest, Bool.and_eq_true, List.all_eq_true] at h2
    have hall : ∀ x ∈ raw, (48 ≤ x && x ≤ 57) = true := by
      intro x hx
      rw [Bool.and_eq_true]
      exact h2.1.1 x hx
    unfold pairPhoneAccepted
    rw [jsTrim_of_digits raw hall, stripNonDigits_of_digits raw hall]
    exact h
  · intro raw h
    simp [pairEndpointImmediate, h]
  · intro raw
    unfold pairPhoneAccepted phoneRegexTest
    rw [stripNonDigits_all_digits (jsTrim raw)]
    simp

/-- Witness for the amended C4 theorem at concrete inputs. -/
theorem pair_phone_validation_witness :
    pairPhoneAccepted (asciiBytes "918888888888") = true ∧
    pairEndpointImmediate (asciiBytes "1234567") = (some 400, 0) :=
  ⟨pair_phone_validation.1 (asciiBytes "918888888888") (by decide),
   pair_phone_validation.2.1 (asciiBytes "1234567") (by decide)⟩

/-! ### Claim C5 -/

/-- Claim C5 counterexample: the pairing-code RPC fires on the very first
`connecting` report — the handler's guard is
`!requested && (connection === 'connecting' || connection === 'open')` —
so a trace that never contains an `open` report already performs the RPC. -/
theorem pairing_rpc_triggered_by_connecting_counterexample :
    (pairHandlerRun [.connUpdate (some "connecting") none]).rpcCalls = 1 ∧
    (pairHandlerRun [.connUpdate (some "connecting") none]).requested = true := by
  refine ⟨rfl, rfl⟩

/-- Claim C5 (amended): the first connection report of `connecting` or
`open` triggers the pairing-code RPC; the one-shot `requested` flag
guarantees at most one RPC per session over any event trace; and on
success the returned code is split into groups of up to four characters
joined by `-` (e.g. `12345678` becomes `1234-5678`) before being sent in
the response. -/
theorem pairing_rpc_behavior :
    (∀ (conn : Option String) (disc : Option Nat) (s : PairHandlerState),
        (pairHandlerStep (.connUpdate conn disc) s).rpcCalls =
          s.rpcCalls +
            (if s.requested = false ∧ (conn = some "connecting" ∨ conn = some "open")
             then 1 else 0)) ∧
    (∀ evs : List PairHandlerEvent, (pairHandlerRun evs).rpcCalls ≤ 1) ∧
    formatPairCode ['1', '2', '3', '4', '5', '6', '7', '8'] =
      ['1', '2', '3', '4', '-', '5', '6', '7', '8'] ∧
    (∀ (code : List Char) (s : PairHandlerState), s.pendingRpc ≠ 0 → s.answered = false →
        (pairHandlerStep (.rpcReturns code) s).responses =
          s.responses ++ [(200, some (formatPairCode code))]) := by
  refine ⟨?_, ?_, rfl, ?_⟩
  · intro conn disc s
    by_cases hg : s.requested = false ∧ (conn = some "connecting" ∨ conn = some "open")
    · simp [pairHandlerStep, hg]
    · simp only [pairHandlerStep, if_neg hg, if_neg hg]
      by_cases hc : conn = some "close"
      · by_cases hd : disc = some DisconnectReason.restartRequired
        · simp [hc, hd, hg]
        · by_cases ha : s.answered <;> simp [hc, hd, ha, hg]
      · simp [hc, hg]
  · intro evs
    exact (pairHandlerFold_inv evs pairHandlerInit (by constructor <;> simp [pairHandlerInit])).1
  · intro code s hp ha
    simp [pairHandlerStep, hp, ha]

/-- Witness for the amended C5 theorem at concrete inputs. -/
theorem pairing_rpc_behavior_witness :
    (pairHandlerStep (.rpcReturns ['1', '2', '3', '4', '5', '6', '7', '8'])
        { pairHandlerInit with requested := true, rpcCalls := 1, pendingRpc := 1 }).responses =
      [(200, some ['1', '2', '3', '4', '-', '5', '6', '7', '8'])] :=
  pairing_rpc_behavior.2.2.2 ['1', '2', '3', '4', '5', '6', '7', '8']
    { pairHandlerInit with requested := true, rpcCalls := 1, pendingRpc := 1 }
    (by decide) rfl

/-! ### Claim C6 -/

/-- Claim C6 (confirmed): `GET /api/session/result/:id` always answers
HTTP 200 — an unknown or not-yet-ready id yields `ready:false` with a null
code rather than an error — and once a session has a short code, any
sequence of later `storeSessionAndCode` calls (creds updates of this or
other sessions) leaves every subsequent poll returning the same code. -/
theorem result_polling_safe_and_stable :
    (∀ (db : FileDB) (id : String), (resultEndpoint db id).1 = 200) ∧
    (∀ (db : FileDB) (id : String), db.registry.lookup id = none →
        resultEndpoint db id = (200, false, none)) ∧
    (∀ (db : FileDB) (id : String) (c : String) (ops : List StoreOp),
        db.registry.lookup id = some c →
        resultEndpoint (applyStores ops db) id = (200, true, some c)) := by
  refine ⟨?_, ?_, ?_⟩
  · intro db id
    rfl
  · intro db id h
    simp [resultEndpoint, h]
  · intro db id c ops h
    have := lookup_preserved_by_stores ops db id c h
    simp [resultEndpoint, this]

/-- Witness for the C6 theorem at concrete inputs. -/
theorem result_polling_safe_and_stable_witness :
    resultEndpoint { registry := [], codes := [] } "unknown" = (200, false, none) ∧
    resultEndpoint (applyStores laterStores readyDb) "S-1" = (200, true, some "LUX~abc") :=
  ⟨result_polling_safe_and_stable.2.1 { registry := [], codes := [] } "unknown" rfl,
   result_polling_safe_and_stable.2.2 readyDb "S-1" "LUX~abc" laterStores rfl⟩

/-! ### Claim C7 -/

/-- Claim C7 counterexample: app.js `authFolderToSessionString` — the
Credential Store serialize operation of the spec — checks only that the
auth directory exists.  For a directory that exists but contains no
`creds.json` (here: a single `app-state.json`), serialization still
succeeds and produces a token instead of failing with NotYetAvailable. -/
theorem serialize_without_creds_succeeds_counterexample :
    (bundleNoCreds.map Prod.fst).contains (asciiBytes "creds.json") = false ∧
    authFolderToSessionString (some bundleNoCreds) =
      Except.ok (mkSessionToken (Json.stringify (Json.obj bundleNoCreds))) := by
  refine ⟨by decide, rfl⟩

/-- Claim C7 (amended): index.js `storeSessionAndCode` does behave as the
claim says — with `creds.json` missing it returns null and stores nothing.
app.js `authFolderToSessionString`, however, fails only when the auth
directory itself is missing; whenever the directory exists it produces a
token from whatever files are present, even without `creds.json`. -/
theorem credential_serialization_missing_file :
    (∀ (db : FileDB) (sid fresh : String),
        storeSessionAndCode db sid none fresh = (db, none)) ∧
    authFolderToSessionString none =
      Except.error "Auth folder does not exist. Login may have failed." ∧
    (∀ files : List (List Nat × Json),
        authFolderToSessionString (some files) =
          Except.ok (mkSessionToken (Json.stringify (Json.obj files)))) := by
  exact ⟨fun db sid fresh => rfl, rfl, fun files => rfl⟩

/-! ### Claim C8 -/

/-- Claim C8 (confirmed): serialization is deterministic.  Two
`authFolderToSessionString` runs over the same unchanged bundle give the
identical token, and two `storeSessionAndCode` runs for the same session
with unchanged `creds.json` return the identical short code even though
the second run is handed different fresh randomness — the first stored
code is reused. -/
theorem serialization_deterministic :
    (∀ authDir : Option (List (List Nat × Json)),
        authFolderToSessionString authDir = authFolderToSessionString authDir) ∧
    (∀ (db : FileDB) (sid content f1 f2 : String),
        (storeSessionAndCode (storeSessionAndCode db sid (some content) f1).1
            sid (some content) f2).2 =
          (storeSessionAndCode db sid (some content) f1).2) := by
  constructor
  · intro authDir
    rfl
  · intro db sid content f1 f2
    unfold storeSessionAndCode
    match hl : db.registry.lookup sid with
    | some code => simp [hl]
    | none => simp [hl, List.lookup]

/-! ### Claim C9 -/

/-- Claim C9 (confirmed): the token encoding is invertible.  For every
credential bundle (whose JSON text is a byte string), the token produced
by `authFolderToSessionString` is the `LUX~` prefix plus the base64 of the
JSON serialization of the filename→content mapping, and stripping the
prefix and base64-decoding recovers exactly that JSON text. -/
theorem session_token_invertible (files : List (List Nat × Json))
    (h : ∀ b ∈ Json.stringify (Json.obj files), b < 256) :
    authFolderToSessionString (some files) =
      Except.ok (mkSessionToken (Json.stringify (Json.obj files))) ∧
    decodeSessionToken (mkSessionToken (Json.stringify (Json.obj files))) =
      some (Json.stringify (Json.obj files)) :=
  ⟨rfl, b64Decode_b64Encode (Json.stringify (Json.obj files)).length _ le_rfl h⟩

/-- Witness for the C9 theorem at a concrete bundle. -/
theorem session_token_invertible_witness :
    decodeSessionToken (mkSessionToken (Json.stringify (Json.obj credBundle0))) =
      some (Json.stringify (Json.obj credBundle0)) :=
  (session_token_invertible credBundle0 (by decide)).2

/-! ### Claim C10 -/

/-- Claim C10 (code bug): the QR handler checks `!answered && qr` BEFORE
the `await QRCode.toDataURL(...)` and sets `answered = true` only after
it, so if the 60-second timer fires while the QR render is awaited the
request is answered twice: the trace "QR arrives; timer fires during the
render; render completes" sends both the 504 and the 200 response,
defeating the one-shot `answered` flag that guards every other branch. -/
theorem qr_double_response_bug :
    (qrHandlerRun [.qrArrives, .timerFires, .renderCompletes]).responses = [504, 200] ∧
    ¬((qrHandlerRun [.qrArrives, .timerFires, .renderCompletes]).responses.length ≤ 1) := by
  refine ⟨rfl, by decide⟩
